import Mathlib

/-!
Verification of the file-upload-gateway repository.

The repository holds three near-duplicate Express reverse-proxy gateways:
  * variant 1 (src/gateway.js, first half): per-route proxies, pathRewrite
    mapping the anchored pattern matching "/api" to the empty string,
    onError answering 502 with a body that always carries the raw error
    message in its details field;
  * the full-featured variant (src/gateway.js, second half): CONFIG with
    hardcoded defaults, manual CORS response headers, OPTIONS
    short-circuit, pathRewrite mapping the pattern matching "/api" to
    "/api" (keeping it), onProxyReq injecting four forwarding headers,
    onError answering 502 with details gated on development mode;
  * the minimal variant (src/unnamed/part_000): two app.use mounts, no
    OPTIONS handling.

Everything the gateways themselves do is translated from the source.
Behaviour of the external proxy library and HTTP framework (copying
inbound headers outbound, changeOrigin, relaying the backend response,
the timeout, route dispatch defaults) is modelled from the spec where
stated below.

Header names are kept lowercase throughout, as Node normalizes them.
-/

namespace Gateway

/-- JavaScript `x || d` on an optional string: `undefined` and the empty
string are falsy and fall back to the default. -/
def jsOr (x : Option String) (d : String) : String :=
  match x with
  | none => d
  | some s => if s = "" then d else s

/-- Response/request header list (name-value pairs, names lowercase). -/
abbrev Headers := List (String × String)

/-- Node `setHeader` semantics: replace the value of an existing header
name, otherwise append the pair. -/
def setHeader : Headers → String → String → Headers
  | [], k, v => [(k, v)]
  | (k₀, v₀) :: t, k, v =>
      if k₀ = k then (k, v) :: t else (k₀, v₀) :: setHeader t k v

/-- Header lookup: value of the first pair with the given name. -/
def getHeader (hs : Headers) (k : String) : Option String :=
  match hs with
  | [] => none
  | (k₀, v₀) :: t => if k₀ = k then some v₀ else getHeader t k

/-- The list of header names. -/
def headerNames (hs : Headers) : List String := hs.map Prod.fst

/-- `listStarts pre l` holds when `pre` is an initial segment of `l`
(the effect of an anchored literal pattern in a JS regex). -/
def listStarts : List Char → List Char → Bool
  | [], _ => true
  | _ :: _, [] => false
  | a :: as, b :: bs => a = b && listStarts as bs

/-- `strStarts pre s`: the string `s` begins with the literal `pre`. -/
def strStarts (pre s : String) : Bool := listStarts pre.data s.data

/-- One anchored-literal regex replacement, the semantics of a
`pathRewrite` entry mapping the pattern anchored at the start of the
path and matching the literal `pre` to the replacement `repl`: when the
path begins with `pre` the first (and only possible) match is replaced
once, otherwise the path is untouched. -/
def rewriteOnce (pre repl : String) (p : String) : String :=
  if strStarts pre p then repl ++ String.mk (p.data.drop pre.data.length) else p

/-- pathRewrite of variant 1 (src/gateway.js lines 24-26) and of the
minimal variant (src/unnamed/part_000): the pattern matching "/api" at
the start of the path maps to the empty string, removing the prefix. -/
def pathRewrite_v1 (p : String) : String := rewriteOnce "/api" "" p

/-- pathRewrite of the full-featured variant (src/gateway.js lines
202-204): the pattern matching "/api" at the start of the path maps to
"/api", keeping the prefix. -/
def pathRewrite_full (p : String) : String := rewriteOnce "/api" "/api" p

/-- The process environment variables the gateways read. -/
structure Env where
  PORT : Option String
  BACKEND_URL : Option String
  NODE_ENV : Option String

/-- CONFIG of the full-featured variant (src/gateway.js lines 80-84):
every field falls back to a hardcoded default under JS `||`. -/
structure Config where
  PORT : String
  BACKEND_URL : String
  NODE_ENV : String
  deriving DecidableEq, Repr

/-- src/gateway.js lines 80-84. -/
def mkConfig (env : Env) : Config :=
  { PORT := jsOr env.PORT "4000"
    BACKEND_URL := jsOr env.BACKEND_URL "https://fileupload-backend-34ev.onrender.com"
    NODE_ENV := jsOr env.NODE_ENV "development" }

/-- Result of running the startup section of the full-featured variant. -/
inductive StartupResult where
  | exited (code : Nat)
  | started (cfg : Config)
  deriving DecidableEq, Repr

/-- Startup validation of the full-featured variant (src/gateway.js
lines 92-95): build CONFIG, then exit with code 1 when
CONFIG.BACKEND_URL is falsy (the empty string), else start. -/
def startup (env : Env) : StartupResult :=
  let cfg := mkConfig env
  if cfg.BACKEND_URL = "" then .exited 1 else .started cfg

/-- A parsed inbound HTTP request as the gateways see it: method, path,
lowercase-named headers, body and the request scheme (req.protocol). -/
structure InboundRequest where
  method : String
  path : String
  headers : Headers
  body : String
  protocol : String

/-- The outbound request the proxy sends to the backend. -/
structure OutboundRequest where
  method : String
  path : String
  headers : Headers
  body : String

/-- Authority (host[:port]) of an absolute URL: the scheme marker is
dropped, as the changeOrigin option needs only the host part. -/
def urlAuthority (u : String) : String :=
  if strStarts "https://" u then String.mk (u.data.drop 8)
  else if strStarts "http://" u then String.mk (u.data.drop 7)
  else u

/-- Modelled from the spec: the proxy library assembles the outbound
request by copying the inbound headers, and under changeOrigin the
outbound Host header is set to the authority of the target origin
rather than preserved from the inbound request (spec section 4.1). -/
def changeOriginHeaders (targetOrigin : String) (hs : Headers) : Headers :=
  setHeader hs "host" (urlAuthority targetOrigin)

/-- onProxyReq of the full-featured variant (src/gateway.js lines
205-214): four forwarding headers are set on the outbound request,
x-forwarded-host and x-original-host from the original Host header,
x-forwarded-proto from the request scheme, x-gateway-request "true". -/
def onProxyReq_full (req : InboundRequest) (hs : Headers) : Headers :=
  let host := (getHeader req.headers "host").getD ""
  setHeader
    (setHeader
      (setHeader
        (setHeader hs "x-forwarded-host" host)
        "x-forwarded-proto" req.protocol)
      "x-original-host" host)
    "x-gateway-request" "true"

/-- The outbound request the full-featured variant sends for an inbound
request routed to the proxy: path through pathRewrite_full, headers
copied, Host changed to the target authority, then amended by
onProxyReq; the body is streamed through unchanged. -/
def mkOutbound_full (cfg : Config) (req : InboundRequest) : OutboundRequest :=
  { method := req.method
    path := pathRewrite_full req.path
    headers := onProxyReq_full req (changeOriginHeaders cfg.BACKEND_URL req.headers)
    body := req.body }

/-- What the backend transaction of one forward attempt came to:
either a response (status, headers, body) or a transport-level failure
carrying its kind, message, and whether response headers had already
been flushed to the client when the failure hit. -/
inductive BackendOutcome where
  | success (status : Nat) (headers : Headers) (body : String)
  | failure (kind message : String) (headersSent : Bool)

/-- A response as written to the original client. -/
structure ClientResponse where
  status : Nat
  headers : Headers
  body : String
  deriving DecidableEq, Repr

/-- The 502 JSON body of the full-featured variant (src/gateway.js
lines 223-228); details is undefined outside development mode, and an
undefined field is absent from the serialized JSON, hence an Option. -/
structure ErrBodyFull where
  error : String
  message : String
  backend_url : String
  details : Option String
  deriving DecidableEq, Repr

/-- onError of the full-featured variant (src/gateway.js lines
218-230): nothing is written when response headers were already sent;
otherwise one 502 response with the JSON error body. -/
def onError_full (cfg : Config) (errMessage : String) (headersSent : Bool) :
    Option (Nat × ErrBodyFull) :=
  if headersSent then none
  else
    some (502,
      { error := "Bad Gateway"
        message := "Backend service unavailable"
        backend_url := cfg.BACKEND_URL
        details := if cfg.NODE_ENV = "development" then some errMessage else none })

/-- The 502 JSON body of variant 1 (src/gateway.js line 36): details
always carries the raw error message; the details field is kept as an
Option so presence of the JSON field is comparable across variants. -/
structure ErrBodyV1 where
  error : String
  details : Option String
  route : String
  deriving DecidableEq, Repr

/-- onError of variant 1 (src/gateway.js lines 33-38). The environment
mode is passed to record that variant 1 never consults it: the body is
the same whatever NODE_ENV holds. -/
def onError_v1 (_nodeEnv : String) (errMessage routeName : String) (headersSent : Bool) :
    Option (Nat × ErrBodyV1) :=
  if headersSent then none
  else some (502, { error := "Bad Gateway", details := some errMessage, route := routeName })

/-- CORS headers set manually on every response by the logging
middleware of the full-featured variant (src/gateway.js lines 139-142);
Access-Control-Allow-Origin is the Origin request header or "*". -/
def corsHeaders (req : InboundRequest) : Headers :=
  [("access-control-allow-origin", jsOr (getHeader req.headers "origin") "*"),
   ("access-control-allow-methods", "GET, POST, PUT, DELETE, OPTIONS"),
   ("access-control-allow-headers",
     "Content-Type, Authorization, x-forwarded-host, x-forwarded-proto, Accept, Origin, X-Requested-With"),
   ("access-control-allow-credentials", "true")]

/-- Modelled from the spec: on success the backend status, headers and
body are relayed to the original caller verbatim (spec section 4.1);
each backend header is set on the client response, which already holds
the headers the gateway set earlier, a same-named one being replaced. -/
def relayHeaders (preset : Headers) (backendHeaders : Headers) : Headers :=
  backendHeaders.foldl (fun acc kv => setHeader acc kv.1 kv.2) preset

/-- What the full-featured variant writes to the client once the
backend outcome of a proxied request is in: a relayed backend response,
one 502 error response with a structured JSON body, or nothing further
(failure after the response had already begun). -/
inductive GatewayWrite where
  | relayed (r : ClientResponse)
  | errorResponse (status : Nat) (headers : Headers) (body : ErrBodyFull)
  | nothingFurther
  deriving DecidableEq, Repr

/-- The response the full-featured variant writes to the client for a
request that was routed to the proxy, given the backend outcome: relay
on success; on failure the onError handler runs, writing nothing when
headers were already flushed. -/
def forwardResponse_full (cfg : Config) (req : InboundRequest)
    (out : BackendOutcome) : GatewayWrite :=
  let preset := corsHeaders req
  match out with
  | .success s bh b => .relayed { status := s, headers := relayHeaders preset bh, body := b }
  | .failure _ msg headersSent =>
      match onError_full cfg msg headersSent with
      | none => .nothingFurther
      | some (st, body) => .errorResponse st preset body

/-- Express mount matching for app.use(mount, ...): the request path is
the mount itself or continues it at a segment boundary. -/
def mountMatches (mount path : String) : Bool :=
  path = mount || strStarts (mount ++ "/") path

/-- How the full-featured variant disposes of one inbound request. -/
inductive Handled where
  | preflight (r : ClientResponse)
  | localRoute (name : String) (headers : Headers)
  | proxied (w : GatewayWrite)
  | notFound (headers : Headers)
  deriving DecidableEq, Repr

/-- Request pipeline of the full-featured variant (src/gateway.js lines
128-252). The logging middleware first sets the four CORS response
headers and answers OPTIONS requests with 200 and no body (lines
139-147); then the local routes GET /, GET /health, GET /test-backend
run (lines 153-193); every request whose path falls under the /api
mount goes to the proxy (lines 236-242). Modelled from the spec for
what the framework supplies: the first matching registration handles
the request, anything else falls through to the framework default 404
(the middleware already ran, so the CORS headers are on that response
too). -/
def handle_full (cfg : Config) (req : InboundRequest) (out : BackendOutcome) : Handled :=
  let preset := corsHeaders req
  if req.method = "OPTIONS" then .preflight { status := 200, headers := preset, body := "" }
  else if req.method = "GET" && req.path = "/" then .localRoute "root" preset
  else if req.method = "GET" && req.path = "/health" then .localRoute "health" preset
  else if req.method = "GET" && req.path = "/test-backend" then .localRoute "test-backend" preset
  else if mountMatches "/api" req.path then .proxied (forwardResponse_full cfg req out)
  else .notFound preset

/-- Route dispatch of the minimal variant (src/unnamed/part_000 lines
8-19): two app.use mounts, /api/upload and /api/download, each backed
by a proxy. app.use is method-agnostic, so the method parameter is
unused: any method on a matching path reaches the proxy. Returns the
mount whose proxy the request reaches, none when no mount matches. -/
def dispatch_000 (_method path : String) : Option String :=
  if mountMatches "/api/upload" path then some "/api/upload"
  else if mountMatches "/api/download" path then some "/api/download"
  else none

/-- A path tail matching an Express :id parameter: one non-empty
segment with no further slash. -/
def isParamSeg (s : List Char) : Bool :=
  !s.isEmpty && s.all (fun c => c ≠ '/')

/-- The path matches pre:id, a literal part followed by one :id
segment. -/
def matchParamRoute (pre path : String) : Bool :=
  listStarts pre.data path.data && isParamSeg (path.data.drop pre.data.length)

/-- How variant 1 disposes of one inbound request. -/
inductive DispatchV1 where
  | localRoute (name : String)
  | forwarded (routeName : String)
  | notFound
  deriving DecidableEq, Repr

/-- Route dispatch of variant 1 (src/gateway.js lines 12-60): two local
JSON routes, four routes handed to per-route proxies. Modelled from the
spec for what the framework supplies: a registration handles a request
when its method and path pattern match exactly (paths taken in
canonical form), and an unmatched request falls through to the
framework default 404. -/
def dispatch_v1 (method path : String) : DispatchV1 :=
  if method = "GET" && path = "/" then .localRoute "root"
  else if method = "GET" && path = "/api/test" then .localRoute "api-test"
  else if method = "POST" && path = "/api/upload" then .forwarded "upload"
  else if method = "POST" && matchParamRoute "/api/download/" path then .forwarded "download"
  else if method = "GET" && matchParamRoute "/api/file/" path then .forwarded "file"
  else if method = "GET" && path = "/api/health" then .forwarded "health"
  else .notFound

/-- Outcome of the backend transaction seen by the transmission step:
a response or a transport failure with its kind and message. -/
inductive RelayResult where
  | success (status : Nat) (headers : Headers) (body : String)
  | failure (kind message : String)
  deriving DecidableEq, Repr

/-- The timeout option the full-featured variant configures on its
proxy (src/gateway.js line 199), in milliseconds. -/
def proxyTimeout_full : Nat := 60000

/-- Modelled from the spec: transmission enforces a hard timeout
measured from connection attempt to first response byte; on expiry the
outbound connection is aborted and a Failure with kind Timeout is
produced (spec section 4.1). Time is discrete milliseconds; the
backend is described by the delay to its first response byte and the
response it would give. Returns the instant the outcome is known and
the outcome. -/
def transmit (timeout firstByteDelay : Nat) (resp : Nat × Headers × String) :
    Nat × RelayResult :=
  if timeout < firstByteDelay then (timeout, .failure "Timeout" "Request timed out")
  else (firstByteDelay, .success resp.1 resp.2.1 resp.2.2)

/-- One timed forward call of the full-featured variant: transmit with
the timeout, then translate the outcome into the write to the client.
A transport failure here happens before any response byte reached the
client, so headers were not yet sent. The instant of the write equals
the instant the outcome was known (response translation itself is
immediate in this model). -/
def timedForward_full (cfg : Config) (req : InboundRequest)
    (timeout firstByteDelay : Nat) (resp : Nat × Headers × String) :
    Nat × GatewayWrite :=
  match transmit timeout firstByteDelay resp with
  | (t, .success s h b) => (t, forwardResponse_full cfg req (.success s h b))
  | (t, .failure k m) => (t, forwardResponse_full cfg req (.failure k m false))

/-- Responses the gateway writes to the original client for one forward
call: the response already begun before a mid-stream failure counts as
the one begun response; the onError handler contributes one more write
exactly when it answers. -/
def responsesWritten (cfg : Config) (out : BackendOutcome) : Nat :=
  match out with
  | .success _ _ _ => 1
  | .failure _ msg headersSent =>
      (if headersSent then 1 else 0) +
        (match onError_full cfg msg headersSent with
         | some _ => 1
         | none => 0)

/-- Headers written for one Handled disposition, none when nothing
further was written. -/
def writtenHeaders : Handled → Option Headers
  | .preflight r => some r.headers
  | .localRoute _ hs => some hs
  | .proxied (.relayed r) => some r.headers
  | .proxied (.errorResponse _ hs _) => some hs
  | .proxied .nothingFurther => none
  | .notFound hs => some hs

/-- The four CORS response header names the middleware sets. -/
def corsNames : List String :=
  ["access-control-allow-origin", "access-control-allow-methods",
   "access-control-allow-headers", "access-control-allow-credentials"]

/-- Recognizer for a variant-1 dispatch that reaches a proxy. -/
def isForwardedV1 : DispatchV1 → Bool
  | .forwarded _ => true
  | _ => false

theorem getHeader_setHeader_self (hs : Headers) (k v : String) :
    getHeader (setHeader hs k v) k = some v := by
  induction hs with
  | nil => simp [setHeader, getHeader]
  | cons p t ih =>
    obtain ⟨k₀, v₀⟩ := p
    by_cases h : k₀ = k
    · simp [setHeader, h, getHeader]
    · simp [setHeader, h, getHeader, ih]

theorem headerNames_cons (k₀ v₀ : String) (t : Headers) :
    headerNames ((k₀, v₀) :: t) = k₀ :: headerNames t := rfl

theorem getHeader_setHeader_ne (hs : Headers) {k k' : String} (v : String) (h : k' ≠ k) :
    getHeader (setHeader hs k v) k' = getHeader hs k' := by
  have h' : ¬(k = k') := Ne.symm h
  induction hs with
  | nil => simp [setHeader, getHeader, h']
  | cons p t ih =>
    obtain ⟨k₀, v₀⟩ := p
    by_cases h₀ : k₀ = k
    · simp [setHeader, h₀, getHeader, h']
    · by_cases h₁ : k₀ = k'
      · simp [setHeader, h₀, getHeader, h₁, h]
      · simp [setHeader, h₀, getHeader, h₁, ih]

theorem getHeader_isSome_setHeader (hs : Headers) (k v k' : String)
    (h : (getHeader hs k').isSome) : (getHeader (setHeader hs k v) k').isSome := by
  by_cases hk : k' = k
  · subst hk
    rw [getHeader_setHeader_self]
    rfl
  · rwa [getHeader_setHeader_ne hs v hk]

theorem getHeader_eq_none_of_not_mem (hs : Headers) (k : String) :
    k ∉ headerNames hs → getHeader hs k = none := by
  induction hs with
  | nil => intro _; rfl
  | cons p t ih =>
    obtain ⟨k₀, v₀⟩ := p
    intro h
    rw [headerNames_cons] at h
    have h₁ : ¬(k = k₀) ∧ k ∉ headerNames t := by
      constructor
      · intro e
        exact h (e ▸ List.mem_cons_self _ _)
      · intro hm
        exact h (List.mem_cons_of_mem _ hm)
    simp [getHeader, Ne.symm h₁.1, ih h₁.2]

theorem relayHeaders_cons (preset : Headers) (k v : String) (t : Headers) :
    relayHeaders preset ((k, v) :: t) = relayHeaders (setHeader preset k v) t := rfl

theorem getHeader_relayHeaders_not_mem (preset bh : Headers) (k : String) :
    k ∉ headerNames bh →
    getHeader (relayHeaders preset bh) k = getHeader preset k := by
  induction bh generalizing preset with
  | nil => intro _; rfl
  | cons p t ih =>
    obtain ⟨k₀, v₀⟩ := p
    intro h
    rw [headerNames_cons] at h
    have h₁ : ¬(k = k₀) := fun e => h (e ▸ List.mem_cons_self _ _)
    have h₂ : k ∉ headerNames t := fun hm => h (List.mem_cons_of_mem _ hm)
    rw [relayHeaders_cons, ih _ h₂, getHeader_setHeader_ne _ _ h₁]

theorem getHeader_relayHeaders_mem (preset bh : Headers) (k v : String) :
    (headerNames bh).Nodup → (k, v) ∈ bh →
    getHeader (relayHeaders preset bh) k = some v := by
  induction bh generalizing preset with
  | nil => intro _ hm; cases hm
  | cons p t ih =>
    obtain ⟨k₀, v₀⟩ := p
    intro hnd hm
    rw [headerNames_cons] at hnd
    rcases List.mem_cons.mp hm with he | ht
    · have hk : k = k₀ := congrArg Prod.fst he
      have hv : v = v₀ := congrArg Prod.snd he
      subst hk
      subst hv
      rw [relayHeaders_cons,
        getHeader_relayHeaders_not_mem _ _ _ (List.nodup_cons.mp hnd).1,
        getHeader_setHeader_self]
    · rw [relayHeaders_cons]
      exact ih _ (List.nodup_cons.mp hnd).2 ht

theorem getHeader_isSome_relayHeaders (preset bh : Headers) (k : String)
    (h : (getHeader preset k).isSome) :
    (getHeader (relayHeaders preset bh) k).isSome := by
  induction bh generalizing preset with
  | nil => exact h
  | cons p t ih =>
    obtain ⟨k₀, v₀⟩ := p
    rw [relayHeaders_cons]
    exact ih _ (getHeader_isSome_setHeader _ _ _ _ h)

theorem listStarts_append (l t : List Char) : listStarts l (l ++ t) = true := by
  induction l with
  | nil => rfl
  | cons a as ih => simp [listStarts, ih]

theorem eq_append_drop_of_listStarts {pre l : List Char}
    (h : listStarts pre l = true) : l = pre ++ l.drop pre.length := by
  induction pre generalizing l with
  | nil => simp
  | cons a as ih =>
    cases l with
    | nil => simp [listStarts] at h
    | cons b bs =>
      simp [listStarts] at h
      obtain ⟨rfl, h₂⟩ := h
      simpa using ih h₂

theorem strStarts_drop {pre p : String} (h : strStarts pre p = true) :
    p = pre ++ String.mk (p.data.drop pre.data.length) := by
  apply String.ext
  have hd := eq_append_drop_of_listStarts (h := h)
  simpa [String.append] using hd

theorem empty_append_str (s : String) : "" ++ s = s := by
  apply String.ext
  simp [String.append]

/-- C1 (counterexample): the claim also covers the pathRewrite of the
full-featured variant (src/gateway.js lines 202-204), whose rule maps
the pattern matching "/api" to "/api"; at the matching path
"/api/upload" that rewrite keeps the path unchanged instead of
removing "/api" once, which would give "/upload". -/
theorem claim1_counterexample :
    pathRewrite_full "/api/upload" = "/api/upload" ∧
    pathRewrite_full "/api/upload" ≠ "/upload" := by
  exact ⟨rfl, by decide⟩

/-- C1 (amended): for the rewrite rules that map the pattern matching
"/api" to the empty string (variant 1 and the minimal variant) the
prefix is removed exactly once when present, a path without the prefix
passes through unchanged, and the rewrite is idempotent once the
prefix is absent; the full-featured variant rule maps the pattern to
"/api" itself and therefore leaves every path unchanged. -/
theorem claim1_amended (p : String) :
    (strStarts "/api" p = true → p = "/api" ++ pathRewrite_v1 p) ∧
    (strStarts "/api" p = false → pathRewrite_v1 p = p) ∧
    (strStarts "/api" p = false → pathRewrite_v1 (pathRewrite_v1 p) = pathRewrite_v1 p) ∧
    pathRewrite_full p = p := by
  refine ⟨?_, ?_, ?_, ?_⟩
  · intro h
    have hv : pathRewrite_v1 p = String.mk (p.data.drop "/api".data.length) := by
      unfold pathRewrite_v1 rewriteOnce
      rw [if_pos h, empty_append_str]
    rw [hv]
    exact strStarts_drop h
  · intro h
    unfold pathRewrite_v1 rewriteOnce
    rw [if_neg (by simp [h])]
  · intro h
    have h₂ : pathRewrite_v1 p = p := by
      unfold pathRewrite_v1 rewriteOnce
      rw [if_neg (by simp [h])]
    rw [h₂, h₂]
  · by_cases h : strStarts "/api" p = true
    · unfold pathRewrite_full rewriteOnce
      rw [if_pos h]
      exact (strStarts_drop h).symm
    · unfold pathRewrite_full rewriteOnce
      rw [if_neg (by simp [Bool.not_eq_true] at h ⊢; exact h)]

/-- C1 (witness): the amended statement applied at "/api/upload". -/
theorem claim1_witness :
    strStarts "/api" "/api/upload" = true ∧
    "/api/upload" = "/api" ++ pathRewrite_v1 "/api/upload" :=
  ⟨by decide, (claim1_amended "/api/upload").1 (by decide)⟩

/-- C3 (counterexample): the claim also covers the onError handler of
variant 1 (src/gateway.js lines 33-38), which puts the raw error
message into the details field whatever the environment mode holds;
here the mode is "production", not "development", and details is still
present. -/
theorem claim3_counterexample :
    ("production" ≠ "development") ∧
    onError_v1 "production" "connect ECONNREFUSED" "upload" false =
      some (502, { error := "Bad Gateway", details := some "connect ECONNREFUSED",
                   route := "upload" }) :=
  ⟨by decide, rfl⟩

/-- C3 (amended): on transport failure with no headers sent the client
receives 502 with error "Bad Gateway"; in the full-featured variant
the details field is present exactly when NODE_ENV is development,
while in variant 1 details always carries the raw error message,
whatever the environment mode. -/
theorem claim3_amended (cfg : Config) (env msg route : String) :
    (∃ b, onError_full cfg msg false = some (502, b) ∧ b.error = "Bad Gateway" ∧
      (b.details ≠ none ↔ cfg.NODE_ENV = "development")) ∧
    onError_v1 env msg route false =
      some (502, { error := "Bad Gateway", details := some msg, route := route }) := by
  constructor
  · refine ⟨_, rfl, rfl, ?_⟩
    by_cases h : cfg.NODE_ENV = "development" <;> simp [h]
  · rfl

/-- C6 (counterexample): with no BACKEND_URL in the environment the
full-featured variant starts anyway, CONFIG.BACKEND_URL falling back
to the hardcoded default origin; it does not exit. -/
theorem claim6_counterexample :
    startup { PORT := none, BACKEND_URL := none, NODE_ENV := none } =
      .started { PORT := "4000",
                 BACKEND_URL := "https://fileupload-backend-34ev.onrender.com",
                 NODE_ENV := "development" } := rfl

/-- C6 (amended): the full-featured variant never exits at startup:
CONFIG.BACKEND_URL falls back to a hardcoded nonempty default under JS
or-defaulting, so the validation branch calling process.exit(1) is
unreachable and the process always starts. -/
theorem claim6_amended (env : Env) : startup env = .started (mkConfig env) := by
  have h : (mkConfig env).BACKEND_URL ≠ "" := by
    cases henv : env.BACKEND_URL with
    | none => simp [mkConfig, jsOr, henv]
    | some s =>
      by_cases hs : s = ""
      · simp [mkConfig, jsOr, henv, hs]
      · simp [mkConfig, jsOr, henv, hs]
  simp [startup, h]

/-- C7 (counterexample): in the minimal variant the app.use mounts are
method-agnostic and there is no OPTIONS handling, so an OPTIONS
request on /api/upload reaches the proxy (the Forwarder) instead of
being short-circuited. -/
theorem claim7_counterexample :
    dispatch_000 "OPTIONS" "/api/upload" = some "/api/upload" := rfl

/-- C7 (amended): in the full-featured variant every OPTIONS request
is answered 200 with an empty body by the middleware and the backend
outcome is never consulted, so the request never reaches the
Forwarder; in the minimal variant an OPTIONS request under a proxy
mount does reach the proxy. -/
theorem claim7_amended (cfg : Config) (req : InboundRequest) (out out₂ : BackendOutcome) :
    (req.method = "OPTIONS" →
      handle_full cfg req out =
        .preflight { status := 200, headers := corsHeaders req, body := "" } ∧
      handle_full cfg req out = handle_full cfg req out₂) ∧
    (∀ p, mountMatches "/api/upload" p = true →
      dispatch_000 "OPTIONS" p = some "/api/upload") := by
  constructor
  · intro h
    constructor <;> simp [handle_full, h]
  · intro p hp
    simp [dispatch_000, hp]

/-- C7 (witness): the amended statement applied to a concrete OPTIONS
request of the full-featured variant. -/
theorem claim7_witness :
    handle_full (mkConfig { PORT := none, BACKEND_URL := none, NODE_ENV := none })
        { method := "OPTIONS", path := "/api/upload", headers := [], body := "",
          protocol := "http" }
        (.success 200 [] "x") =
      .preflight
        { status := 200,
          headers := corsHeaders
            { method := "OPTIONS", path := "/api/upload", headers := [], body := "",
              protocol := "http" },
          body := "" } :=
  ((claim7_amended (mkConfig { PORT := none, BACKEND_URL := none, NODE_ENV := none })
    { method := "OPTIONS", path := "/api/upload", headers := [], body := "",
      protocol := "http" }
    (.success 200 [] "x") (.failure "e" "m" false)).1 rfl).1

/-- C8: every forward call of the full-featured variant resolves to
exactly one response written to the original client, and the onError
handler writes nothing when response headers were already flushed. -/
theorem claim8_single_response (cfg : Config) :
    (∀ out, responsesWritten cfg out = 1) ∧
    (∀ msg, onError_full cfg msg true = none) := by
  constructor
  · intro out
    cases out with
    | success s h b => rfl
    | failure k m hs =>
      cases hs with
      | false => simp [responsesWritten, onError_full]
      | true => simp [responsesWritten, onError_full]
  · intro msg
    rfl

/-- C10: in variant 1 a request reaches a proxy exactly for the four
registered method and path combinations (POST /api/upload,
POST /api/download/:id, GET /api/file/:id, GET /api/health), and every
other request under /api, apart from GET /api/test, falls through to
the framework default 404. -/
theorem claim10_routes (m p : String) :
    (isForwardedV1 (dispatch_v1 m p) = true ↔
      (m = "POST" ∧ p = "/api/upload") ∨
      (m = "POST" ∧ matchParamRoute "/api/download/" p = true) ∨
      (m = "GET" ∧ matchParamRoute "/api/file/" p = true) ∨
      (m = "GET" ∧ p = "/api/health")) ∧
    (strStarts "/api" p = true →
      ¬((m = "POST" ∧ p = "/api/upload") ∨
        (m = "POST" ∧ matchParamRoute "/api/download/" p = true) ∨
        (m = "GET" ∧ matchParamRoute "/api/file/" p = true) ∨
        (m = "GET" ∧ p = "/api/health")) →
      ¬(m = "GET" ∧ p = "/api/test") →
      dispatch_v1 m p = .notFound) := by
  constructor
  · unfold dispatch_v1
    split_ifs with h₁ h₂ h₃ h₄ h₅ h₆ <;>
      simp_all [isForwardedV1] <;> try decide
  · intro hp hnot htest
    unfold dispatch_v1
    split_ifs with h₁ h₂ h₃ h₄ h₅ h₆ <;> simp_all
    all_goals exact absurd hp (by decide)

/-- C10 (witness): the statement applied at GET /api/upload, a method
not registered for that path: the framework default 404. -/
theorem claim10_witness :
    dispatch_v1 "GET" "/api/upload" = .notFound :=
  (claim10_routes "GET" "/api/upload").2 (by decide) (by decide) (by decide)

/-- C2: a backend response relayed by the full-featured variant reaches
the client with the backend status code and body unchanged, and every
backend header is present on the client response with the exact value
the backend sent (backend header names taken distinct, as a parsed
header block holds one entry per name). -/
theorem claim2_relay_unchanged (cfg : Config) (req : InboundRequest)
    (s : Nat) (bh : Headers) (b : String)
    (hnd : (headerNames bh).Nodup) :
    forwardResponse_full cfg req (.success s bh b) =
      .relayed { status := s, headers := relayHeaders (corsHeaders req) bh, body := b } ∧
    ∀ k v, (k, v) ∈ bh →
      getHeader (relayHeaders (corsHeaders req) bh) k = some v := by
  constructor
  · rfl
  · intro k v hm
    exact getHeader_relayHeaders_mem _ _ _ _ hnd hm

/-- C2 (witness): a backend 201 with header x-custom: v and the body
from the spec example reaches the client as a 201 with that header and
that body. -/
theorem claim2_witness :
    forwardResponse_full (mkConfig { PORT := none, BACKEND_URL := none, NODE_ENV := none })
        { method := "POST", path := "/api/upload", headers := [("host", "localhost:4000")],
          body := "", protocol := "https" }
        (.success 201 [("x-custom", "v")] "\x7b\"ok\":true\x7d") =
      .relayed
        { status := 201,
          headers := relayHeaders
            (corsHeaders
              { method := "POST", path := "/api/upload",
                headers := [("host", "localhost:4000")], body := "", protocol := "https" })
            [("x-custom", "v")],
          body := "\x7b\"ok\":true\x7d" } ∧
    getHeader
        (relayHeaders
          (corsHeaders
            { method := "POST", path := "/api/upload",
              headers := [("host", "localhost:4000")], body := "", protocol := "https" })
          [("x-custom", "v")]) "x-custom" = some "v" := by
  have h := claim2_relay_unchanged
    (mkConfig { PORT := none, BACKEND_URL := none, NODE_ENV := none })
    { method := "POST", path := "/api/upload", headers := [("host", "localhost:4000")],
      body := "", protocol := "https" }
    201 [("x-custom", "v")] "\x7b\"ok\":true\x7d" (by decide)
  exact ⟨h.1, h.2 "x-custom" "v" (by decide)⟩

/-- C4 (counterexample): with changeOrigin configured, the outbound
Host header is the target origin authority, not the inbound value, so
the outbound header list is not the inbound list plus exactly the four
injected headers. -/
theorem claim4_counterexample :
    (mkOutbound_full (mkConfig { PORT := none, BACKEND_URL := none, NODE_ENV := none })
        { method := "POST", path := "/api/upload",
          headers := [("host", "localhost:4000"), ("content-type", "application/json")],
          body := "B", protocol := "https" }).headers =
      [("host", "fileupload-backend-34ev.onrender.com"),
       ("content-type", "application/json"),
       ("x-forwarded-host", "localhost:4000"),
       ("x-forwarded-proto", "https"),
       ("x-original-host", "localhost:4000"),
       ("x-gateway-request", "true")] ∧
    (mkOutbound_full (mkConfig { PORT := none, BACKEND_URL := none, NODE_ENV := none })
        { method := "POST", path := "/api/upload",
          headers := [("host", "localhost:4000"), ("content-type", "application/json")],
          body := "B", protocol := "https" }).headers ≠
      [("host", "localhost:4000"), ("content-type", "application/json")] ++
        [("x-forwarded-host", "localhost:4000"), ("x-forwarded-proto", "https"),
         ("x-original-host", "localhost:4000"), ("x-gateway-request", "true")] := by
  exact ⟨rfl, by decide⟩

/-- C4 (amended): the outbound headers are the inbound headers with
Host replaced by the target origin authority (changeOrigin), plus the
four injected forwarding headers, each injection overriding a
same-named inbound header; no inbound header name disappears. -/
theorem claim4_amended (cfg : Config) (req : InboundRequest) :
    getHeader (mkOutbound_full cfg req).headers "x-forwarded-host" =
      some ((getHeader req.headers "host").getD "") ∧
    getHeader (mkOutbound_full cfg req).headers "x-forwarded-proto" = some req.protocol ∧
    getHeader (mkOutbound_full cfg req).headers "x-original-host" =
      some ((getHeader req.headers "host").getD "") ∧
    getHeader (mkOutbound_full cfg req).headers "x-gateway-request" = some "true" ∧
    getHeader (mkOutbound_full cfg req).headers "host" = some (urlAuthority cfg.BACKEND_URL) ∧
    (∀ k, k ≠ "host" → k ≠ "x-forwarded-host" → k ≠ "x-forwarded-proto" →
      k ≠ "x-original-host" → k ≠ "x-gateway-request" →
      getHeader (mkOutbound_full cfg req).headers k = getHeader req.headers k) ∧
    (∀ k, (getHeader req.headers k).isSome →
      (getHeader (mkOutbound_full cfg req).headers k).isSome) := by
  simp only [mkOutbound_full, onProxyReq_full, changeOriginHeaders]
  refine ⟨?_, ?_, ?_, ?_, ?_, ?_, ?_⟩
  · rw [getHeader_setHeader_ne _ _ (by decide),
      getHeader_setHeader_ne _ _ (by decide),
      getHeader_setHeader_ne _ _ (by decide),
      getHeader_setHeader_self]
  · rw [getHeader_setHeader_ne _ _ (by decide),
      getHeader_setHeader_ne _ _ (by decide),
      getHeader_setHeader_self]
  · rw [getHeader_setHeader_ne _ _ (by decide),
      getHeader_setHeader_self]
  · rw [getHeader_setHeader_self]
  · rw [getHeader_setHeader_ne _ _ (by decide),
      getHeader_setHeader_ne _ _ (by decide),
      getHeader_setHeader_ne _ _ (by decide),
      getHeader_setHeader_ne _ _ (by decide),
      getHeader_setHeader_self]
  · intro k hk₁ hk₂ hk₃ hk₄ hk₅
    rw [getHeader_setHeader_ne _ _ hk₅, getHeader_setHeader_ne _ _ hk₄,
      getHeader_setHeader_ne _ _ hk₃, getHeader_setHeader_ne _ _ hk₂,
      getHeader_setHeader_ne _ _ hk₁]
  · intro k hk
    exact getHeader_isSome_setHeader _ _ _ _
      (getHeader_isSome_setHeader _ _ _ _
        (getHeader_isSome_setHeader _ _ _ _
          (getHeader_isSome_setHeader _ _ _ _
            (getHeader_isSome_setHeader _ _ _ _ hk))))

/-- C4 (witness): the amended statement applied to a concrete request:
content-type survives, x-gateway-request is injected. -/
theorem claim4_witness :
    getHeader
        (mkOutbound_full (mkConfig { PORT := none, BACKEND_URL := none, NODE_ENV := none })
          { method := "POST", path := "/api/upload",
            headers := [("host", "localhost:4000"), ("content-type", "application/json")],
            body := "B", protocol := "https" }).headers "content-type" =
      some "application/json" ∧
    getHeader
        (mkOutbound_full (mkConfig { PORT := none, BACKEND_URL := none, NODE_ENV := none })
          { method := "POST", path := "/api/upload",
            headers := [("host", "localhost:4000"), ("content-type", "application/json")],
            body := "B", protocol := "https" }).headers "x-gateway-request" = some "true" := by
  have h := claim4_amended (mkConfig { PORT := none, BACKEND_URL := none, NODE_ENV := none })
    { method := "POST", path := "/api/upload",
      headers := [("host", "localhost:4000"), ("content-type", "application/json")],
      body := "B", protocol := "https" }
  exact ⟨(h.2.2.2.2.2.1 "content-type" (by decide) (by decide) (by decide) (by decide)
    (by decide)).trans rfl, h.2.2.2.1⟩

/-- C5: when the backend has not produced its first response byte
within the timeout, transmission aborts at the timeout instant with a
Failure of kind Timeout, and the client receives the 502 Bad Gateway
response at an instant no later than the timeout. -/
theorem claim5_timeout (cfg : Config) (req : InboundRequest)
    (timeout delay : Nat) (resp : Nat × Headers × String)
    (h : timeout < delay) :
    transmit timeout delay resp = (timeout, .failure "Timeout" "Request timed out") ∧
    (timedForward_full cfg req timeout delay resp).1 ≤ timeout ∧
    timedForward_full cfg req timeout delay resp =
      (timeout, .errorResponse 502 (corsHeaders req)
        { error := "Bad Gateway", message := "Backend service unavailable",
          backend_url := cfg.BACKEND_URL,
          details := if cfg.NODE_ENV = "development" then some "Request timed out"
                     else none }) := by
  have ht : transmit timeout delay resp =
      (timeout, .failure "Timeout" "Request timed out") := by
    simp [transmit, h]
  refine ⟨ht, ?_, ?_⟩ <;>
    simp [timedForward_full, ht, forwardResponse_full, onError_full]

/-- C5 (witness): with the configured 60000 ms timeout of the
full-featured variant and a backend first byte at 60001 ms, the 502 is
written at 60000 ms. -/
theorem claim5_witness :
    (timedForward_full (mkConfig { PORT := none, BACKEND_URL := none, NODE_ENV := none })
        { method := "GET", path := "/api/x", headers := [], body := "", protocol := "http" }
        proxyTimeout_full 60001 (200, [], "ok")).1 ≤ proxyTimeout_full ∧
    proxyTimeout_full = 60000 :=
  ⟨(claim5_timeout (mkConfig { PORT := none, BACKEND_URL := none, NODE_ENV := none })
      { method := "GET", path := "/api/x", headers := [], body := "", protocol := "http" }
      proxyTimeout_full 60001 (200, [], "ok") (by decide)).2.1, rfl⟩

/-- C9 (counterexample): a backend response that itself carries exactly
the four CORS headers the middleware sets is relayed header-for-header
identical to what the backend sent, so relayed responses are not
_never_ identical to the backend response. -/
theorem claim9_counterexample :
    handle_full (mkConfig { PORT := none, BACKEND_URL := none, NODE_ENV := none })
        { method := "GET", path := "/api/data", headers := [("host", "localhost:4000")],
          body := "", protocol := "http" }
        (.success 200
          (corsHeaders
            { method := "GET", path := "/api/data", headers := [("host", "localhost:4000")],
              body := "", protocol := "http" })
          "payload") =
      .proxied (.relayed
        { status := 200,
          headers := corsHeaders
            { method := "GET", path := "/api/data", headers := [("host", "localhost:4000")],
              body := "", protocol := "http" },
          body := "payload" }) := by
  decide

/-- C9 (amended): every non-OPTIONS response of the full-featured
variant carries the four Access-Control-* header names set by the
middleware, Access-Control-Allow-Origin holding the request Origin or
"*" in the preset; on a relayed backend response the preset value
survives for each of the four names the backend did not itself send,
and whenever the backend did not send the Access-Control-Allow-Origin
name at all the relayed headers differ from the backend headers. -/
theorem claim9_amended (cfg : Config) (req : InboundRequest) (out : BackendOutcome)
    (hs : Headers) (hm : req.method ≠ "OPTIONS")
    (hw : writtenHeaders (handle_full cfg req out) = some hs) :
    ((getHeader hs "access-control-allow-origin").isSome ∧
     (getHeader hs "access-control-allow-methods").isSome ∧
     (getHeader hs "access-control-allow-headers").isSome ∧
     (getHeader hs "access-control-allow-credentials").isSome) ∧
    getHeader (corsHeaders req) "access-control-allow-origin" =
      some (jsOr (getHeader req.headers "origin") "*") ∧
    (∀ s bh b, out = .success s bh b →
      (∀ n, n ∈ corsNames → n ∉ headerNames bh →
        getHeader hs n = getHeader (corsHeaders req) n) ∧
      ("access-control-allow-origin" ∉ headerNames bh → hs ≠ bh)) := by
  have hc₁ : getHeader (corsHeaders req) "access-control-allow-origin" =
      some (jsOr (getHeader req.headers "origin") "*") := rfl
  have hc₂ : getHeader (corsHeaders req) "access-control-allow-methods" =
      some "GET, POST, PUT, DELETE, OPTIONS" := rfl
  have hc₃ : getHeader (corsHeaders req) "access-control-allow-headers" =
      some "Content-Type, Authorization, x-forwarded-host, x-forwarded-proto, Accept, Origin, X-Requested-With" :=
    rfl
  have hc₄ : getHeader (corsHeaders req) "access-control-allow-credentials" =
      some "true" := rfl
  have hshape : hs = corsHeaders req ∨
      ∃ s bh b, out = .success s bh b ∧ hs = relayHeaders (corsHeaders req) bh := by
    simp only [handle_full] at hw
    split_ifs at hw with h₁ h₂ h₃ h₄ h₅
    · exact absurd h₁ hm
    · simp only [writtenHeaders, Option.some.injEq] at hw
      exact Or.inl hw.symm
    · simp only [writtenHeaders, Option.some.injEq] at hw
      exact Or.inl hw.symm
    · simp only [writtenHeaders, Option.some.injEq] at hw
      exact Or.inl hw.symm
    · cases out with
      | success s bh b =>
        simp only [forwardResponse_full, writtenHeaders, Option.some.injEq] at hw
        exact Or.inr ⟨s, bh, b, rfl, hw.symm⟩
      | failure k m hsent =>
        cases hsent with
        | false =>
          simp only [forwardResponse_full, onError_full, writtenHeaders,
            Option.some.injEq, if_neg Bool.false_ne_true] at hw
          exact Or.inl hw.symm
        | true =>
          simp [forwardResponse_full, onError_full, writtenHeaders] at hw
    · simp only [writtenHeaders, Option.some.injEq] at hw
      exact Or.inl hw.symm
  rcases hshape with rfl | ⟨s, bh, b, rfl, rfl⟩
  · refine ⟨⟨by simp [hc₁], by simp [hc₂], by simp [hc₃], by simp [hc₄]⟩, hc₁, ?_⟩
    intro s bh b _
    refine ⟨fun n _ _ => rfl, fun hnb he => ?_⟩
    have h₁ : (getHeader (corsHeaders req) "access-control-allow-origin").isSome := by
      simp [hc₁]
    rw [he, getHeader_eq_none_of_not_mem _ _ hnb] at h₁
    simp at h₁
  · refine ⟨⟨getHeader_isSome_relayHeaders _ _ _ (by simp [hc₁]),
      getHeader_isSome_relayHeaders _ _ _ (by simp [hc₂]),
      getHeader_isSome_relayHeaders _ _ _ (by simp [hc₃]),
      getHeader_isSome_relayHeaders _ _ _ (by simp [hc₄])⟩, hc₁, ?_⟩
    intro s' bh' b' hout
    injection hout with e₁ e₂ e₃
    subst e₁
    subst e₂
    subst e₃
    refine ⟨fun n _ hnb => getHeader_relayHeaders_not_mem _ _ _ hnb, fun hnb he => ?_⟩
    have h₁ : (getHeader (relayHeaders (corsHeaders req) bh)
        "access-control-allow-origin").isSome :=
      getHeader_isSome_relayHeaders _ _ _ (by simp [hc₁])
    rw [he, getHeader_eq_none_of_not_mem _ _ hnb] at h₁
    simp at h₁

/-- C9 (witness): the amended statement applied to a relayed backend
response that carries only an x-custom header: the client response
still has Access-Control-Allow-Origin and so differs from the backend
header list. -/
theorem claim9_witness :
    (getHeader
        (relayHeaders
          (corsHeaders
            { method := "GET", path := "/api/data", headers := [("host", "localhost:4000")],
              body := "", protocol := "http" })
          [("x-custom", "v")]) "access-control-allow-origin").isSome ∧
    relayHeaders
        (corsHeaders
          { method := "GET", path := "/api/data", headers := [("host", "localhost:4000")],
            body := "", protocol := "http" })
        [("x-custom", "v")] ≠ [("x-custom", "v")] := by
  have h := claim9_amended (mkConfig { PORT := none, BACKEND_URL := none, NODE_ENV := none })
    { method := "GET", path := "/api/data", headers := [("host", "localhost:4000")],
      body := "", protocol := "http" }
    (.success 200 [("x-custom", "v")] "b")
    (relayHeaders
      (corsHeaders
        { method := "GET", path := "/api/data", headers := [("host", "localhost:4000")],
          body := "", protocol := "http" })
      [("x-custom", "v")])
    (by decide) rfl
  exact ⟨h.1.1, (h.2.2 200 [("x-custom", "v")] "b" rfl).2 (by decide)⟩

end Gateway
